import Mathlib

/-!
Verification of `gcd_talker/gcd.py` (Grand Comics Database metadata source).

Python strings are modelled as `List Char` so that every operation is an
executable, kernel-reducible Lean function.  SQLite tables are modelled as
Lean lists/functions; one row of a table is a structure whose fields carry
the columns the source reads.  Effects (opening a database connection,
cache reads/writes, web requests) are modelled as an explicit event list so
that ordering claims ("before any connection is attempted") are statable.
-/

/-- Convert a Lean string literal to the `List Char` representation used
throughout this development. -/
def chars (s : String) : List Char := s.data

/-- ASCII lower-casing of one character (model of Python `str.lower` /
`str.casefold` on the ASCII alphabet used by the source's currency codes and
format vocabulary). -/
def lowerChar (c : Char) : Char :=
  if 'A' ≤ c && c ≤ 'Z' then Char.ofNat (c.toNat + 32) else c

/-- ASCII upper-casing of one character. -/
def upperChar (c : Char) : Char :=
  if 'a' ≤ c && c ≤ 'z' then Char.ofNat (c.toNat - 32) else c

/-- Model of Python `str.casefold` (ASCII). -/
def lowerL (s : List Char) : List Char := s.map lowerChar

/-- Python whitespace (the characters stripped by `str.strip`). -/
def isPySpace (c : Char) : Bool :=
  c = ' ' || c = '\t' || c = '\n' || c = '\r' || c = Char.ofNat 11 || c = Char.ofNat 12

/-- Model of Python `str.strip()`: drop leading and trailing whitespace. -/
def pyStrip (s : List Char) : List Char :=
  ((s.dropWhile isPySpace).reverse.dropWhile isPySpace).reverse

/-- Model of Python `str.capitalize()`: first character upper-cased, the
rest lower-cased. -/
def pyCapitalize (s : List Char) : List Char :=
  match s with
  | [] => []
  | c :: rest => upperChar c :: rest.map lowerChar

/-- Helper for `pyTitle`: the Bool records whether the previous character
was alphabetic (cased). -/
def pyTitleAux : Bool → List Char → List Char
  | _, [] => []
  | prevAlpha, c :: rest =>
    (if c.isAlpha then (if prevAlpha then lowerChar c else upperChar c) else c)
      :: pyTitleAux c.isAlpha rest

/-- Model of Python `str.title()`: each alphabetic run starts upper-case,
continues lower-case. -/
def pyTitle (s : List Char) : List Char := pyTitleAux false s

/-- Model of Python `str.endswith`: `suffix` is a suffix of `s`. -/
def pyEndsWith (suffix : List Char) (s : List Char) : Bool :=
  suffix.isSuffixOf s

/-- First occurrence of `sep` (a non-empty character sequence) in `s`:
returns the part before it and the part after it. -/
def findSep (sep : List Char) : List Char → Option (List Char × List Char)
  | [] => none
  | a :: rest =>
    if sep.isPrefixOf (a :: rest) then some ([], (a :: rest).drop sep.length)
    else
      match findSep sep rest with
      | none => none
      | some (pre, post) => some (a :: pre, post)

/-- Fuel-driven splitting on a character sequence (the fuel only bounds the
number of separators, which `pySplit` instantiates generously). -/
def splitOnSeqFuel (sep : List Char) : Nat → List Char → List (List Char)
  | 0, s => [s]
  | fuel + 1, s =>
    match findSep sep s with
    | none => [s]
    | some (pre, post) => pre :: splitOnSeqFuel sep fuel post

/-- Model of Python `str.split(sep)` for a non-empty separator string.
For a single-character separator this agrees with `List.splitOn`. -/
def pySplit (sep : List Char) (s : List Char) : List (List Char) :=
  splitOnSeqFuel sep s.length s

/-- Decimal digits of a natural number (model of SQLite rendering an
integer column as text, and of Python `str(n)`). -/
def natChars (n : Nat) : List Char := (Nat.repr n).data

/-- Model of Python `int(s)` on the well-formed digit strings produced by
`natChars` (the source only parses back story ids it concatenated itself). -/
def parseNat (s : List Char) : Nat :=
  s.foldl (fun a c => a * 10 + (c.toNat - 48)) 0

/-- Model of SQLite `GROUP_CONCAT(CASE WHEN v IS NOT NULL AND v != '' THEN v
END, sep)`: empty values become NULL, NULLs are skipped, and the aggregate
is NULL (`none`) when no value remains. -/
def groupConcat (sep : List Char) (vals : List (List Char)) : Option (List Char) :=
  match vals.filter (fun v => v ≠ []) with
  | [] => none
  | xs => some (List.intercalate sep xs)

/-- gcd.py line 720-724: `row_dict["story_titles"].split("\n")` when the
column is present and not NULL, else `[]`. -/
def assembleStoryTitles (v : Option (List Char)) : List (List Char) :=
  match v with
  | some s => s.splitOn '\n'
  | none => []

/-- gcd.py line 725-729: `row_dict["synopses"].split("\n\n")` when the
column is present and not NULL, else `[]`. -/
def assembleSynopses (v : Option (List Char)) : List (List Char) :=
  match v with
  | some s => pySplit (chars "\n\n") s
  | none => []

/-- gcd.py line 747-749: `row_dict["story_ids"].split("\n")` when present
and truthy, else `[]`. -/
def assembleStoryIds (v : Option (List Char)) : List (List Char) :=
  match v with
  | some s => if s = [] then [] else s.splitOn '\n'
  | none => []

/-- gcd.py line 752-756: `[genre.strip().capitalize() for genre in
row_dict["genres"].split(";")]` when present and truthy, else `[]`. -/
def assembleGenres (v : Option (List Char)) : List (List Char) :=
  match v with
  | some s => if s = [] then [] else (s.splitOn ';').map (fun g => pyCapitalize (pyStrip g))
  | none => []

/-- gcd.py line 742-744: `row_dict["characters"].split("; ")` when present
and truthy, else `[]`. -/
def assembleCharacters (v : Option (List Char)) : List (List Char) :=
  match v with
  | some s => if s = [] then [] else pySplit (chars "; ") s
  | none => []

/-! ## Data model -/

/-- Observable side effects of one talker operation, in order of
occurrence.  `connectDb` is one `sqlite3.connect(...)` call. -/
inductive Event where
  | connectDb
  | cacheGetSeries (id : Nat)
  | cacheGetIssue (id : Nat)
  | cachePutSeries (id : Nat)
  | cachePutIssue (id : Nat)
  | webRequest
  deriving DecidableEq, Repr

/-- Errors escaping a talker operation.  `talkerData n` is
`TalkerDataError(self.name, n, ...)` (n = 3: configuration / not found,
n = 1: sqlite3.DataError, n = 0: other sqlite3.Error).  `pyTypeError` is an
uncaught Python `TypeError` (subscripting the `None` returned by
`cur.fetchone()` on an empty result). -/
inductive GcdError where
  | talkerData (code : Nat)
  | talkerNetwork (code : Nat)
  | pyTypeError
  deriving DecidableEq, Repr

/-- Talker settings and connection-independent state flags
(gcd.py `__init__` / `parse_settings`; `dbFileExists` models whether
`pathlib.Path(self.db_file).is_file()` holds). -/
structure Config where
  dbFileExists : Bool
  use_series_start_as_volume : Bool
  prefer_story_titles : Bool
  combine_notes : Bool
  use_ongoing_issue_count : Bool
  currency : List Char
  download_gui_covers : Bool
  download_tag_covers : Bool
  has_issue_id_type_id_index : Bool
  has_fts5 : Bool
  has_fts5_checked : Bool
  nn_is_issue_one : Bool
  replace_nn_with_one : Bool
  deriving DecidableEq, Repr

/-- One row of `gcd_series` (joined with `gcd_publisher.name`), carrying the
columns the source reads.  Text columns that feed string operations are
modelled as (possibly empty) strings; nullable year/count columns as
`Option Nat`. -/
structure SeriesRow where
  id : Nat
  name : List Char
  sort_name : List Char
  notes : List Char
  year_began : Option Nat
  year_ended : Option Nat
  issue_count : Option Nat
  publisher_name : List Char
  format : List Char
  deriving DecidableEq, Repr

/-- One row of `gcd_issue`, pre-joined with the country / language / imprint
lookups of the complete-issue query (those joins are pure key lookups in
foreign tables, so their result is modelled as columns of the row). -/
structure IssueRow where
  id : Nat
  series_id : Nat
  number : List Char
  key_date : List Char
  title : List Char
  notes : List Char
  volume : Option Nat
  price : List Char
  isbn : List Char
  rating : List Char
  country : List Char
  country_iso : List Char
  language : List Char
  language_iso : List Char
  imprint : List Char
  deriving DecidableEq, Repr

/-- One row of `gcd_story`. -/
structure StoryRow where
  id : Nat
  type_id : Nat
  title : List Char
  genre : List Char
  synopsis : List Char
  characters : List Char
  deriving DecidableEq, Repr

/-- The `GCDSeries` TypedDict of gcd.py. -/
structure GCDSeriesR where
  id : Nat
  name : List Char
  sort_name : List Char
  notes : List Char
  year_began : Option Nat
  year_ended : Option Nat
  count_of_issues : Option Nat
  publisher_name : List Char
  format : List Char
  image : List Char
  cover_downloaded : Bool
  deriving DecidableEq, Repr

/-- The `GCDIssue` TypedDict of gcd.py.  Fields that are only present when
`_format_gcd_issue` runs with `complete=True` are `Option`s (`none` models
the key being absent from the dict). -/
structure GCDIssueR where
  id : Nat
  key_date : List Char
  number : List Char
  issue_title : List Char
  series_id : Nat
  story_titles : List (List Char)
  synopses : List (List Char)
  image : List Char
  alt_image_urls : List (List Char)
  covers_downloaded : Bool
  issue_notes : Option (List Char)
  volume : Option (Option Nat)
  price : Option (List Char)
  isbn : Option (List Char)
  imprint : Option (List Char)
  maturity_rating : Option (List Char)
  characters : List (List Char)
  country : Option (List Char)
  country_iso : Option (List Char)
  story_ids : List (List Char)
  language : Option (List Char)
  language_iso : Option (List Char)
  genres : List (List Char)
  credits : List (List Char × List Char)
  deriving DecidableEq, Repr

/-- The row shape produced by the complete single-issue query of
`_fetch_issue_by_issue_id` (GROUP_CONCAT columns are `Option`: NULL when no
story contributed). -/
structure IssueQueryRow where
  id : Nat
  key_date : List Char
  number : List Char
  issue_title : List Char
  series_id : Nat
  price : List Char
  isbn : List Char
  issue_notes : List Char
  volume : Option Nat
  maturity_rating : List Char
  characters : Option (List Char)
  country : List Char
  country_iso : List Char
  language : List Char
  language_iso : List Char
  story_titles : Option (List Char)
  genres : Option (List Char)
  synopses : Option (List Char)
  story_ids : Option (List Char)
  imprint : List Char
  deriving DecidableEq, Repr

/-- The row shape produced by the grouped issue-listing queries of
`fetch_issues_in_series` and `fetch_issues_by_series_issue_num_and_year`. -/
structure IssuePartialRow where
  id : Nat
  key_date : List Char
  number : List Char
  issue_title : List Char
  series_id : Nat
  story_titles : Option (List Char)
  deriving DecidableEq, Repr

/-- The fields of comicapi's `GenericMetadata` that gcd.py populates and
this development tracks.  A fresh `GenericMetadata()` has every field
absent (`MD.empty`); note `_map_comic_issue_to_metadata` always sets
`description` to a string, so a mapped record is never `MD.empty`. -/
structure MD where
  issue_id : Option Nat := none
  series_id : Option Nat := none
  series : Option (List Char) := none
  publisher : Option (List Char) := none
  title : Option (List Char) := none
  description : Option (List Char) := none
  price : Option (List Char) := none
  issue_count : Option Nat := none
  volume : Option Nat := none
  format : Option (List Char) := none
  language : Option (List Char) := none
  country : Option (List Char) := none
  maturity_rating : Option (List Char) := none
  imprint : Option (List Char) := none
  identifier : Option (List Char) := none
  deriving DecidableEq, Repr

/-- `GenericMetadata()`: the empty placeholder record. -/
def MD.empty : MD := {}

/-- The fields of comicapi's `ComicSeries` populated by
`_format_search_results`. -/
structure ComicSeriesR where
  id : List Char
  name : List Char
  publisher : List Char
  description : List Char
  start_year : Option Nat
  count_of_issues : Option Nat
  image_url : List Char
  deriving DecidableEq, Repr

/-- The external world of one call: database tables, the cover-scraping
collaborator and the two cache stores.  The FTS5 engine is external to the
source (SQLite internals), so full-text query execution is a field. -/
structure Env where
  seriesDb : Nat → Option SeriesRow
  seriesTable : List SeriesRow
  issuesDb : List IssueRow
  storiesOf : Nat → List StoryRow
  ftsQuery : List Char → List SeriesRow
  issueCreditsDb : Nat → List (List Char × List Char)
  storyCreditsDb : Nat → List (List Char × List Char)
  findIssueImages : Nat → List Char × List (List Char)
  findSeriesImage : Nat → List Char
  seriesCache : Nat → Option (GCDSeriesR × Bool)
  issueCache : Nat → Option (GCDIssueR × Bool)

deriving instance DecidableEq for Except

/-- Result of one cache-consulting fetch: emitted events, outcome, and the
cache entry for the requested id after the call. -/
structure FetchOut (α : Type) where
  events : List Event
  result : Except GcdError α
  cacheAfter : Option (α × Bool)
  deriving DecidableEq, Repr

/-! ## Format matcher (`_match_format`, gcd.py lines 542-569)

The source compiles the pattern `\b(?:w1|w2|...)\b` with `re.IGNORECASE`
and runs `re.search`.  The model implements exactly that engine fragment:
scan positions left to right; at a position where the leading `\b` holds,
try the alternatives in listed order; inside an alternative, optional
classes (`[\s]?`, `[-\s]?`) and `.*` backtrack greedily; the first
candidate whose end satisfies the trailing `\b` wins. -/

/-- One regex token of the format vocabulary. -/
inductive Tok where
  | lit (w : List Char)
  | optCls (p : Char → Bool)
  | dotStar

/-- Case-insensitive literal match at the head of `s`; returns the matched
text (original casing) and the rest. -/
def matchCI : List Char → List Char → Option (List Char × List Char)
  | [], s => some ([], s)
  | _ :: _, [] => none
  | c :: cs, a :: s =>
    if lowerChar a = c then
      match matchCI cs s with
      | some (m, r) => some (a :: m, r)
      | none => none
    else none

/-- Candidate splits for `.*` (no newline), longest first (greedy). -/
def dotStarSplits (s : List Char) : List (List Char × List Char) :=
  let k := (s.takeWhile (fun c => c ≠ '\n')).length
  (List.range (k + 1)).reverse.map (fun i => (s.take i, s.drop i))

/-- All ways one alternative's token list can match at the head of `s`,
in backtracking preference order: `(matched text, rest)`. -/
def matchToks : List Tok → List Char → List (List Char × List Char)
  | [], s => [([], s)]
  | Tok.lit w :: ts, s =>
    match matchCI w s with
    | some (m, r) => (matchToks ts r).map (fun q => (m ++ q.1, q.2))
    | none => []
  | Tok.optCls p :: ts, s =>
    (match s with
     | a :: r => if p a then (matchToks ts r).map (fun q => (a :: q.1, q.2)) else []
     | [] => [])
    ++ matchToks ts s
  | Tok.dotStar :: ts, s =>
    (dotStarSplits s).flatMap (fun pr => (matchToks ts pr.2).map (fun q => (pr.1 ++ q.1, q.2)))

/-- Python `\w` (ASCII fragment): letters, digits, underscore. -/
def isWordChar (c : Char) : Bool := c.isAlphanum || c = '_'

/-- Word-character test seen through an optional character (`none` = out of
the string). -/
def optWord : Option Char → Bool
  | none => false
  | some c => isWordChar c

/-- Regex `\b` between two adjacent (possibly out-of-string) characters. -/
def boundaryB (a b : Option Char) : Bool := optWord a != optWord b

/-- Python regex `\s` (ASCII fragment), the same character set as Python
string whitespace. -/
def isRegexSpace (c : Char) : Bool := isPySpace c

/-- The `word_list` of `_match_format`, in source order, as token lists. -/
def wordListToks : List (List Tok) :=
  [ [Tok.lit (chars "annual")],
    [Tok.lit (chars "album")],
    [Tok.lit (chars "anthology")],
    [Tok.lit (chars "collection")],
    [Tok.lit (chars "collect"), Tok.dotStar],
    [Tok.lit (chars "graphic novel")],
    [Tok.lit (chars "hardcover")],
    [Tok.lit (chars "limited series")],
    [Tok.lit (chars "one"), Tok.optCls (fun c => c = '-' || isRegexSpace c), Tok.lit (chars "shot")],
    [Tok.lit (chars "preview")],
    [Tok.lit (chars "special")],
    [Tok.lit (chars "trade paper"), Tok.optCls isRegexSpace, Tok.lit (chars "back")],
    [Tok.lit (chars "web"), Tok.optCls isRegexSpace, Tok.lit (chars "comic")],
    [Tok.lit (chars "mini"), Tok.optCls (fun c => c = '-' || isRegexSpace c), Tok.lit (chars "series")] ]

/-- First candidate of one alternative whose end satisfies the trailing
`\b`; returns the matched text. -/
def tryAlt (toks : List Tok) (s : List Char) : Option (List Char) :=
  ((matchToks toks s).find? (fun pr => boundaryB pr.1.getLast? pr.2.head?)).map (fun pr => pr.1)

/-- First alternative (in source order) matching at the head of `s`. -/
def findFirstAlt (s : List Char) : Option (List Char) :=
  wordListToks.findSome? (fun t => tryAlt t s)

/-- `re.search` for the format pattern: leftmost position wins; `prev` is
the character before the current position (for the leading `\b`). -/
def reSearchFormat : Option Char → List Char → Option (List Char)
  | _, [] => none
  | prev, a :: rest =>
    match (if boundaryB prev (some a) then findFirstAlt (a :: rest) else none) with
    | some m => some m
    | none => reSearchFormat (some a) rest

/-- Model of Python `needle in hay` (substring containment). -/
def containsSub (needle hay : List Char) : Bool :=
  needle = [] || (findSep needle hay).isSome

/-- gcd.py `_match_format`: classify a free-text publishing-format field. -/
def match_format (s : List Char) : Option (List Char) :=
  match reSearchFormat none s with
  | some m =>
    if containsSub (chars "collect") (lowerL m) then some (chars "Collection")
    else some (pyTitle m)
  | none => none

/-! ## Record assembly (`_format_gcd_issue`, `_format_search_results`) -/

/-- `_format_gcd_issue(row, complete=True)` on a complete-issue query row. -/
def format_gcd_issue_complete (row : IssueQueryRow) : GCDIssueR :=
  { id := row.id
    key_date := row.key_date
    number := row.number
    issue_title := row.issue_title
    series_id := row.series_id
    story_titles := assembleStoryTitles row.story_titles
    synopses := assembleSynopses row.synopses
    image := []
    alt_image_urls := []
    covers_downloaded := false
    issue_notes := some row.issue_notes
    volume := some row.volume
    price := some row.price
    isbn := some row.isbn
    imprint := some row.imprint
    maturity_rating := some row.maturity_rating
    characters := assembleCharacters row.characters
    country := some row.country
    country_iso := some row.country_iso
    story_ids := assembleStoryIds row.story_ids
    language := some row.language
    language_iso := some row.language_iso
    genres := assembleGenres row.genres
    credits := [] }

/-- `_format_gcd_issue(row)` (complete=False) on a grouped listing row: the
complete-only keys stay absent; these rows carry no `synopses` column, so
`synopses` is `[]`. -/
def format_gcd_issue_listing (row : IssuePartialRow) : GCDIssueR :=
  { id := row.id
    key_date := row.key_date
    number := row.number
    issue_title := row.issue_title
    series_id := row.series_id
    story_titles := assembleStoryTitles row.story_titles
    synopses := []
    image := []
    alt_image_urls := []
    covers_downloaded := false
    issue_notes := none
    volume := none
    price := none
    isbn := none
    imprint := none
    maturity_rating := none
    characters := []
    country := none
    country_iso := none
    story_ids := []
    language := none
    language_iso := none
    genres := []
    credits := [] }

/-- One entry of `_format_search_results`. -/
def format_search_result (r : GCDSeriesR) : ComicSeriesR :=
  { id := natChars r.id
    name := r.name
    publisher := r.publisher_name
    description := r.notes
    start_year := r.year_began
    count_of_issues := r.count_of_issues
    image_url := r.image }

/-! ## Metadata mapping (`_map_comic_issue_to_metadata`, gcd.py 973-1057) -/

/-- Model of comicapi `utils.xlate_float` (external to this repository):
it keeps only digit and dot characters of the string and converts to
float; the numeric value is represented here by that literal digit string
(`none` when nothing remains). -/
def xlate_float (s : List Char) : Option (List Char) :=
  let i := s.filter (fun c => c.isDigit || c = '.')
  if i = [] then none else some i

/-- gcd.py lines 1007-1011: split the raw price on `;` and assign
`md.price = xlate_float(component)` for EVERY component whose casefolded
text ends with the casefolded preferred currency (no break: the last
assignment survives). -/
def md_price (currency : List Char) (priceField : List Char) : Option (List Char) :=
  (pySplit [';'] priceField).foldl
    (fun acc p => if pyEndsWith (lowerL currency) (lowerL p) then xlate_float p else acc) none

/-- The `\r\n\r\n` block separator of the description assembly. -/
def crlf2 : List Char := chars "\r\n\r\n"

/-- gcd.py lines 1020-1030: description assembly (notes prefix under the
combine-notes policy, then titled blocks or synopsis concatenation). -/
def map_description (cfg : Config) (series : GCDSeriesR) (issue : GCDIssueR) : List Char :=
  let base := if cfg.combine_notes then series.notes ++ issue.issue_notes.getD [] else []
  if issue.synopses.length = issue.story_titles.length then
    (issue.story_titles.zip issue.synopses).foldl
      (fun acc ts => if ts.1 ≠ [] && ts.2 ≠ [] then acc ++ (ts.1 ++ chars ": " ++ ts.2 ++ crlf2) else acc)
      base
  else
    base ++ List.intercalate crlf2 issue.synopses

/-- `_map_comic_issue_to_metadata`.  Fields whose value is produced by
external comicapi helpers with no bearing on the claims (display issue
number via `IssueString`, key-date parsing, web link) are not tracked. -/
def map_comic_issue_to_metadata (cfg : Config) (issue : GCDIssueR) (series : GCDSeriesR) : MD :=
  { issue_id := some issue.id
    series_id := some series.id
    series := some series.name
    publisher := some series.publisher_name
    title :=
      if (cfg.prefer_story_titles || issue.issue_title = []) && issue.story_titles ≠ [] then
        some (List.intercalate (chars "; ") issue.story_titles)
      else some issue.issue_title
    description := some (map_description cfg series issue)
    price :=
      match issue.price with
      | some p => if p ≠ [] then md_price cfg.currency p else none
      | none => none
    issue_count :=
      if (match series.year_ended with | some y => y ≠ 0 | none => false)
          || cfg.use_ongoing_issue_count then
        series.count_of_issues
      else none
    volume := if cfg.use_series_start_as_volume then series.year_began else issue.volume.join
    format := match_format series.format
    language := issue.language_iso
    country := issue.country
    maturity_rating := issue.maturity_rating
    imprint := issue.imprint
    identifier :=
      match issue.isbn with
      | some i => if i ≠ [] then some i else none
      | none => none }

/-! ## Issue selection (`fetch_issues_by_series_issue_num_and_year`,
`_fetch_issue_data`) -/

/-- The date clause `(key_date LIKE ? OR key_date='')`: with no year the
parameter is `%` (true of every stored string); with a year it is
`str(year)%`, a prefix test. -/
def year_date_filter (year : Option Nat) (kd : List Char) : Bool :=
  match year with
  | none => true
  | some y => (natChars y).isPrefixOf kd || kd = []

/-- WHERE clause of `fetch_issues_by_series_issue_num_and_year` for one
series id: `sql_search_issues` normally, `sql_search_issues_nn` (which
parenthesizes `(number=? OR number='[nn]')`) when `nn_is_issue_one` is set
and the requested number is `"1"`. -/
def issues_num_year_where (nn_is_issue_one : Bool) (issue_number : List Char)
    (year : Option Nat) (vid : Nat) (r : IssueRow) : Bool :=
  r.series_id == vid
  && (if nn_is_issue_one && issue_number == chars "1" then
        (r.number == issue_number || r.number == chars "[nn]")
      else r.number == issue_number)
  && year_date_filter year r.key_date

/-- WHERE clause of `_fetch_issue_data` (`sql_where` / `sql_where_nn`).
The `nn` variant of the source has no parentheses, and SQL `AND` binds
tighter than `OR`: `series_id=? AND number=? OR number='[nn]'` therefore
also selects every `[nn]` row of other series. -/
def fetch_issue_data_where (nn_is_issue_one : Bool) (series_id : Nat)
    (issue_number : List Char) (r : IssueRow) : Bool :=
  if nn_is_issue_one && issue_number == chars "1" then
    (r.series_id == series_id && r.number == issue_number) || r.number == chars "[nn]"
  else
    r.series_id == series_id && r.number == issue_number

/-- The row set the multi-series query selects (before GROUP BY),
accumulated over the caller-supplied series ids in order. -/
def issues_by_num_selection (db : List IssueRow) (ids : List Nat)
    (issue_number : List Char) (year : Option Nat) (nn_is_issue_one : Bool) : List IssueRow :=
  ids.flatMap (fun vid => db.filter (issues_num_year_where nn_is_issue_one issue_number year vid))

/-- GROUP BY `gcd_issue.number` over an ordered row list: one output row
per distinct number (first-occurrence order; the first row of each group
supplies the non-aggregated columns — SQLite leaves both unspecified),
with the type-19 story titles of the whole group concatenated. -/
def group_issues_by_number (rows : List IssueRow) (storiesOf : Nat → List StoryRow) :
    List IssuePartialRow :=
  (rows.foldl (fun acc r => if acc.any (fun x => x.number == r.number) then acc else acc ++ [r]) []).map
    (fun rep =>
      let grp := rows.filter (fun x => x.number == rep.number)
      { id := rep.id
        key_date := rep.key_date
        number := rep.number
        issue_title := rep.title
        series_id := rep.series_id
        story_titles := groupConcat ['\n']
          (grp.flatMap (fun x =>
            ((storiesOf x.id).filter (fun st => st.type_id == 19)).map (fun st => st.title))) })

/-- The complete-issue query row of `_fetch_issue_by_issue_id`: the issue
row joined with its type-19 stories, per-story columns aggregated.  The
bare `gcd_story.characters` column under GROUP BY takes the value of an
unspecified story row; modelled as the first. -/
def build_issue_query_row (r : IssueRow) (stories : List StoryRow) : IssueQueryRow :=
  let st := stories.filter (fun s => s.type_id == 19)
  { id := r.id
    key_date := r.key_date
    number := r.number
    issue_title := r.title
    series_id := r.series_id
    price := r.price
    isbn := r.isbn
    issue_notes := r.notes
    volume := r.volume
    maturity_rating := r.rating
    characters := st.head?.map (fun s => s.characters)
    country := r.country
    country_iso := r.country_iso
    language := r.language
    language_iso := r.language_iso
    story_titles := groupConcat ['\n'] (st.map (fun s => s.title))
    genres := groupConcat [';'] (st.map (fun s => s.genre))
    synopses := groupConcat (chars "\n\n") (st.map (fun s => s.synopsis))
    story_ids := groupConcat ['\n'] (st.map (fun s => natChars s.id))
    imprint := r.imprint }

/-! ## Fetch operations -/

/-- `check_db_filename_not_empty`: raises `TalkerDataError` with code 3
when the configured path is not an existing file. -/
def check_db_filename_not_empty (cfg : Config) : Except GcdError Unit :=
  if cfg.dbFileExists then Except.ok () else Except.error (GcdError.talkerData 3)

/-- `check_create_index`: the path check runs first; only when the index
flag is not yet set is a connection opened to probe/create the index. -/
def check_create_index_events (cfg : Config) : Except GcdError (List Event) :=
  match check_db_filename_not_empty cfg with
  | Except.error e => Except.error e
  | Except.ok _ =>
    Except.ok (if cfg.has_issue_id_type_id_index then [] else [Event.connectDb])

/-- The fresh `GCDSeries` dict `_fetch_series_data` builds from a database
row (the cover is scraped only under the GUI-covers policy). -/
def build_series_data (cfg : Config) (env : Env) (series_id : Nat) (row : SeriesRow) : GCDSeriesR :=
  { id := row.id
    name := row.name
    sort_name := row.sort_name
    notes := row.notes
    year_began := row.year_began
    year_ended := row.year_ended
    count_of_issues := row.issue_count
    publisher_name := row.publisher_name
    format := row.format
    image := if cfg.download_gui_covers then env.findSeriesImage series_id else []
    cover_downloaded := cfg.download_gui_covers }

/-- Database path of `_fetch_series_data`: note it performs NO path check —
`sqlite3.connect` runs regardless (a missing file yields an empty database
whose query fails with a generic `sqlite3.Error`, surfaced with code 0);
`fetchone()` returning None is then subscripted (`row["id"]`), a Python
`TypeError`, when the series id has no row. -/
def fetch_series_data_db (cfg : Config) (env : Env) (series_id : Nat) : FetchOut GCDSeriesR :=
  if !cfg.dbFileExists then
    { events := [Event.cacheGetSeries series_id, Event.connectDb]
      result := Except.error (GcdError.talkerData 0)
      cacheAfter := env.seriesCache series_id }
  else
    match env.seriesDb series_id with
    | none =>
      { events := [Event.cacheGetSeries series_id, Event.connectDb]
        result := Except.error GcdError.pyTypeError
        cacheAfter := env.seriesCache series_id }
    | some row =>
      let result := build_series_data cfg env series_id row
      { events := [Event.cacheGetSeries series_id, Event.connectDb]
          ++ (if cfg.download_gui_covers then [Event.connectDb, Event.webRequest] else [])
          ++ [Event.cachePutSeries series_id]
        result := Except.ok result
        cacheAfter := some (result, true) }

/-- `_fetch_series_data` (gcd.py 764-828): a complete cache entry is
returned as-is unless the GUI-covers policy is on and the cached
`cover_downloaded` flag is false, in which case the database path runs. -/
def fetch_series_data (cfg : Config) (env : Env) (series_id : Nat) : FetchOut GCDSeriesR :=
  match env.seriesCache series_id with
  | some (c, true) =>
    if cfg.download_gui_covers && c.cover_downloaded then
      { events := [Event.cacheGetSeries series_id]
        result := Except.ok c
        cacheAfter := some (c, true) }
    else if !cfg.download_gui_covers then
      { events := [Event.cacheGetSeries series_id]
        result := Except.ok c
        cacheAfter := some (c, true) }
    else fetch_series_data_db cfg env series_id
  | _ => fetch_series_data_db cfg env series_id

/-- `_find_issue_credits`: issue-level credits first, then per-story-id
credits in story order, no deduplication. -/
def find_issue_credits (env : Env) (issue_id : Nat) (story_ids : List (List Char)) :
    List (List Char × List Char) :=
  env.issueCreditsDb issue_id ++ story_ids.flatMap (fun sid => env.storyCreditsDb (parseNat sid))

/-- The fresh complete `GCDIssue` dict the database path of
`_fetch_issue_by_issue_id` assembles from the grouped query row: formatted
with `complete=True`, credits attached, covers scraped under the
GUI-covers policy. -/
def build_complete_issue (cfg : Config) (env : Env) (issue_id : Nat) (row : IssueRow) : GCDIssueR :=
  let base := format_gcd_issue_complete (build_issue_query_row row (env.storiesOf issue_id))
  let withCredits := { base with credits := find_issue_credits env issue_id base.story_ids }
  if cfg.download_gui_covers then
    { withCredits with
        image := (env.findIssueImages issue_id).1
        alt_image_urls := (env.findIssueImages issue_id).2
        covers_downloaded := true }
  else { withCredits with covers_downloaded := false }

/-- Database path of `_fetch_issue_by_issue_id`: index check (which checks
the path, code 3), grouped query (a missing id raises code 3), credits,
optional cover scrape, unconditional cache write of a complete entry. -/
def fetch_issue_by_issue_id_db (cfg : Config) (env : Env) (issue_id : Nat) : FetchOut GCDIssueR :=
  match check_create_index_events cfg with
  | Except.error e =>
    { events := [Event.cacheGetIssue issue_id]
      result := Except.error e
      cacheAfter := env.issueCache issue_id }
  | Except.ok idxEv =>
    match env.issuesDb.find? (fun r => r.id == issue_id) with
    | none =>
      { events := [Event.cacheGetIssue issue_id] ++ idxEv ++ [Event.connectDb]
        result := Except.error (GcdError.talkerData 3)
        cacheAfter := env.issueCache issue_id }
    | some row =>
      let final := build_complete_issue cfg env issue_id row
      { events := [Event.cacheGetIssue issue_id] ++ idxEv ++ [Event.connectDb, Event.connectDb]
          ++ (if cfg.download_gui_covers then [Event.webRequest] else [])
          ++ [Event.cachePutIssue issue_id]
        result := Except.ok final
        cacheAfter := some (final, true) }

/-- `_fetch_issue_by_issue_id` (gcd.py 874-971): a complete cache entry is
returned as-is unless the GUI-covers policy is on and the cached
`covers_downloaded` flag is false, in which case the database path runs. -/
def fetch_issue_by_issue_id (cfg : Config) (env : Env) (issue_id : Nat) : FetchOut GCDIssueR :=
  match env.issueCache issue_id with
  | some (c, true) =>
    if cfg.download_gui_covers && c.covers_downloaded then
      { events := [Event.cacheGetIssue issue_id]
        result := Except.ok c
        cacheAfter := some (c, true) }
    else if !cfg.download_gui_covers then
      { events := [Event.cacheGetIssue issue_id]
        result := Except.ok c
        cacheAfter := some (c, true) }
    else fetch_issue_by_issue_id_db cfg env issue_id
  | _ => fetch_issue_by_issue_id_db cfg env issue_id

/-- `_fetch_issue_data_by_issue_id`: fetch the issue, then its series, then
map to metadata. -/
def fetch_issue_data_by_issue_id (cfg : Config) (env : Env) (issue_id : Nat) :
    List Event × Except GcdError MD :=
  let o := fetch_issue_by_issue_id cfg env issue_id
  match o.result with
  | Except.error e => (o.events, Except.error e)
  | Except.ok issue =>
    let s := fetch_series_data cfg env issue.series_id
    match s.result with
    | Except.error e => (o.events ++ s.events, Except.error e)
    | Except.ok series =>
      (o.events ++ s.events, Except.ok (map_comic_issue_to_metadata cfg issue series))

/-- `_fetch_issue_data` (gcd.py 830-866): find the first row matching the
series-and-number clause and delegate to the by-id path.  On an empty
result `cur.fetchone()` is None and `row["id"]` raises Python `TypeError`;
the trailing `return GenericMetadata()` is reached only for a row whose id
is 0 (falsy). -/
def fetch_issue_data (cfg : Config) (env : Env) (series_id : Nat) (issue_number : List Char) :
    List Event × Except GcdError MD :=
  if !cfg.dbFileExists then ([Event.connectDb], Except.error (GcdError.talkerData 0))
  else
    match (env.issuesDb.filter (fetch_issue_data_where cfg.nn_is_issue_one series_id issue_number)).head? with
    | none => ([Event.connectDb], Except.error GcdError.pyTypeError)
    | some row =>
      if row.id ≠ 0 then
        let o := fetch_issue_data_by_issue_id cfg env row.id
        (Event.connectDb :: o.1, o.2)
      else ([Event.connectDb], Except.ok MD.empty)

/-- `fetch_comic_data` (gcd.py 415-426): path check, then dispatch on
issue id / series id + number; with neither, the empty record. -/
def fetch_comic_data (cfg : Config) (env : Env) (issue_id : Option Nat)
    (series_id : Option Nat) (issue_number : List Char) :
    List Event × Except GcdError MD :=
  match check_db_filename_not_empty cfg with
  | Except.error e => ([], Except.error e)
  | Except.ok _ =>
    match issue_id with
    | some iid => fetch_issue_data_by_issue_id cfg env iid
    | none =>
      match series_id with
      | some sid =>
        if issue_number ≠ [] then fetch_issue_data cfg env sid issue_number
        else ([], Except.ok MD.empty)
      | none => ([], Except.ok MD.empty)

/-- `fetch_series` (gcd.py 761-762): series data through the cache-aware
fetch, formatted as a `ComicSeries`.  No path check of its own. -/
def fetch_series (cfg : Config) (env : Env) (series_id : Nat) :
    List Event × Except GcdError ComicSeriesR :=
  let o := fetch_series_data cfg env series_id
  (o.events, o.result.map format_search_result)

/-- `fetch_issues_in_series` (gcd.py 428-470): series data first (no prior
path check), then `check_create_index`, then the grouped listing query; an
empty row set yields `[GenericMetadata()]`. -/
def fetch_issues_in_series (cfg : Config) (env : Env) (series_id : Nat) :
    List Event × Except GcdError (List MD) :=
  let s := fetch_series_data cfg env series_id
  match s.result with
  | Except.error e => (s.events, Except.error e)
  | Except.ok series =>
    match check_create_index_events cfg with
    | Except.error e => (s.events, Except.error e)
    | Except.ok idxEv =>
      let rows := group_issues_by_number
        (env.issuesDb.filter (fun r => r.series_id == series_id)) env.storiesOf
      if rows = [] then (s.events ++ idxEv ++ [Event.connectDb], Except.ok [MD.empty])
      else
        (s.events ++ idxEv ++ [Event.connectDb],
         Except.ok (rows.map (fun r => map_comic_issue_to_metadata cfg (format_gcd_issue_listing r) series)))

/-- `fetch_issues_by_series_issue_num_and_year` (gcd.py 472-540):
`check_create_index` first, then one pass over the series ids, each with a
cache-aware series fetch, the grouped number/year query, optional tagging
covers, and the metadata mapping. -/
def fetch_issues_by_series_issue_num_and_year (cfg : Config) (env : Env)
    (series_id_list : List Nat) (issue_number : List Char) (year : Option Nat) :
    List Event × Except GcdError (List MD) :=
  match check_create_index_events cfg with
  | Except.error e => ([], Except.error e)
  | Except.ok idxEv =>
    series_id_list.foldl
      (fun acc vid =>
        match acc with
        | (evs, Except.error e) => (evs, Except.error e)
        | (evs, Except.ok mds) =>
          let s := fetch_series_data cfg env vid
          match s.result with
          | Except.error e => (evs ++ s.events, Except.error e)
          | Except.ok series =>
            let rows := group_issues_by_number
              (env.issuesDb.filter (issues_num_year_where cfg.nn_is_issue_one issue_number year vid))
              env.storiesOf
            let issues := rows.map format_gcd_issue_listing
            let issues2 :=
              if cfg.download_tag_covers then
                issues.map (fun i =>
                  { i with
                      image := (env.findIssueImages i.id).1
                      alt_image_urls := (env.findIssueImages i.id).2
                      covers_downloaded := true })
              else issues
            (evs ++ s.events
               ++ (if cfg.download_tag_covers then issues.map (fun _ => Event.webRequest) else []),
             Except.ok (mds ++ issues2.map (fun i => map_comic_issue_to_metadata cfg i series))))
      (idxEv ++ [Event.connectDb], Except.ok [])

/-! ## Series search (`search_for_series`, gcd.py 321-413) -/

/-- SQLite `LIKE` with `%` wildcards (case-insensitive on ASCII); the fuel
strictly dominates the number of recursion steps. -/
def likeMatchFuel : Nat → List Char → List Char → Bool
  | 0, _, _ => false
  | _ + 1, [], s => s.isEmpty
  | fuel + 1, p :: ps, s =>
    if p = '%' then
      likeMatchFuel fuel ps s
        || (match s with
            | [] => false
            | _ :: s2 => likeMatchFuel fuel (p :: ps) s2)
    else
      match s with
      | [] => false
      | a :: s2 => lowerChar a = lowerChar p && likeMatchFuel fuel ps s2

/-- SQLite `LIKE` entry point. -/
def likeMatch (pat s : List Char) : Bool :=
  likeMatchFuel (pat.length + s.length + 1) pat s

/-- The LIKE pattern of the non-FTS path: spaces replaced by `%` and a
trailing `%` appended (gcd.py 358). -/
def like_pattern (name : List Char) : List Char :=
  name.map (fun c => if c = ' ' then '%' else c) ++ ['%']

/-- The single-quote character. -/
def squote : Char := Char.ofNat 39

/-- The FTS5 search string (gcd.py 362-367): double each single and double
quote, wrap the phrase in double quotes, then turn every space into
`" "` so each word is individually quoted. -/
def fts_escape (name : List Char) : List Char :=
  let n1 := name.flatMap (fun c => if c = squote then [c, c] else [c])
  let n2 := n1.flatMap (fun c => if c = '"' then [c, c] else [c])
  let n3 := '"' :: n2 ++ ['"']
  n3.flatMap (fun c => if c = ' ' then ['"', ' ', '"'] else [c])

/-- `search_for_series`.  The `callback`, `refresh_cache` and
`series_match_thresh` parameters are carried exactly as the source
declares them (the body never reads them).  FTS MATCH execution is the
external SQLite engine (`env.ftsQuery`); the literal and LIKE strategies
run over the series table. -/
def search_for_series (cfg : Config) (env : Env) (series_name : List Char)
    (callback : Option (Nat → Nat → Unit)) (refresh_cache : Bool)
    (literal : Bool) (series_match_thresh : Nat) :
    List Event × Except GcdError (List ComicSeriesR) :=
  match check_db_filename_not_empty cfg with
  | Except.error e => ([], Except.error e)
  | Except.ok _ =>
    let ftsEv := if cfg.has_fts5_checked then [] else [Event.connectDb, Event.connectDb]
    let rows :=
      if literal then env.seriesTable.filter (fun r => r.name == series_name)
      else if !cfg.has_fts5 then
        env.seriesTable.filter (fun r => likeMatch (like_pattern series_name) r.name)
      else env.ftsQuery (fts_escape series_name)
    let results := rows.map (fun r =>
      ({ id := r.id
         name := r.name
         sort_name := r.sort_name
         notes := r.notes
         year_began := r.year_began
         year_ended := r.year_ended
         count_of_issues := r.issue_count
         publisher_name := r.publisher_name
         format := []
         image := []
         cover_downloaded := false } : GCDSeriesR))
    (ftsEv ++ [Event.connectDb], Except.ok (results.map format_search_result))

/-! ## Concrete fixtures (used by witnesses and counterexamples) -/

/-- A baseline configuration: database present, every policy off except a
set preferred currency, index and FTS flags already established. -/
def cfg0 : Config :=
  { dbFileExists := true
    use_series_start_as_volume := false
    prefer_story_titles := false
    combine_notes := false
    use_ongoing_issue_count := false
    currency := chars "EUR"
    download_gui_covers := false
    download_tag_covers := false
    has_issue_id_type_id_index := true
    has_fts5 := true
    has_fts5_checked := true
    nn_is_issue_one := false
    replace_nn_with_one := false }

/-- `cfg0` with a missing database file. -/
def cfgNoDb : Config := { cfg0 with dbFileExists := false }

/-- `cfg0` with the treat-unnumbered-as-issue-1 policy on. -/
def cfgNN : Config := { cfg0 with nn_is_issue_one := true }

/-- A baseline assembled series record. -/
def series0 : GCDSeriesR :=
  { id := 1
    name := chars "Test Series"
    sort_name := chars "Test Series"
    notes := chars "Series notes."
    year_began := some 1999
    year_ended := some 2001
    count_of_issues := some 12
    publisher_name := chars "Pub"
    format := []
    image := []
    cover_downloaded := false }

/-- A baseline assembled issue record (complete-path fields empty). -/
def issue0 : GCDIssueR :=
  { id := 10
    key_date := []
    number := chars "1"
    issue_title := []
    series_id := 1
    story_titles := []
    synopses := []
    image := []
    alt_image_urls := []
    covers_downloaded := false
    issue_notes := none
    volume := none
    price := none
    isbn := none
    imprint := none
    maturity_rating := none
    characters := []
    country := none
    country_iso := none
    story_ids := []
    language := none
    language_iso := none
    genres := []
    credits := [] }

/-- A baseline `gcd_series` database row. -/
def seriesRow1 : SeriesRow :=
  { id := 1
    name := chars "Test Series"
    sort_name := chars "Test Series"
    notes := chars "Series notes."
    year_began := some 1999
    year_ended := some 2001
    issue_count := some 12
    publisher_name := chars "Pub"
    format := [] }

/-- A baseline `gcd_issue` database row. -/
def issueRowBase : IssueRow :=
  { id := 10
    series_id := 1
    number := chars "1"
    key_date := []
    title := []
    notes := []
    volume := none
    price := []
    isbn := []
    rating := []
    country := []
    country_iso := []
    language := []
    language_iso := []
    imprint := [] }

/-- An environment with empty tables and caches. -/
def emptyEnv : Env :=
  { seriesDb := fun _ => none
    seriesTable := []
    issuesDb := []
    storiesOf := fun _ => []
    ftsQuery := fun _ => []
    issueCreditsDb := fun _ => []
    storyCreditsDb := fun _ => []
    findIssueImages := fun _ => ([], [])
    findSeriesImage := fun _ => []
    seriesCache := fun _ => none
    issueCache := fun _ => none }

/-- An `[nn]` issue belonging to series 7 (not the requested series). -/
def rowNN : IssueRow := { issueRowBase with id := 10, series_id := 7, number := chars "[nn]" }

/-- The series-7 row owning `rowNN`. -/
def seriesRow7 : SeriesRow := { seriesRow1 with id := 7, name := chars "Other Series" }

/-- Environment whose only issue is the series-7 `[nn]` issue. -/
def env2 : Env :=
  { emptyEnv with
      issuesDb := [rowNN]
      seriesDb := fun n => if n = 7 then some seriesRow7 else none }

/-! ## Helper lemmas -/

/-- A fold that overwrites its accumulator at every element satisfying `q`
returns the image of the LAST such element (or the initial value). -/
theorem foldl_overwrite {α β : Type} (q : α → Bool) (g : α → Option β) :
    ∀ (l : List α) (init : Option β),
      l.foldl (fun acc p => if q p then g p else acc) init
        = ((l.filter q).getLast?).elim init g := by
  intro l
  induction l with
  | nil => intro init; simp
  | cons a t ih =>
    intro init
    simp only [List.foldl_cons, List.filter_cons]
    cases h : q a with
    | false => simp only [h, Bool.false_eq_true, if_neg, ite_false]; exact ih init
    | true =>
      simp only [h, ite_true]
      rw [ih]
      cases ht : t.filter q with
      | nil => simp
      | cons b u =>
        have hne : b :: u ≠ [] := by simp
        obtain ⟨x, hx⟩ := Option.isSome_iff_exists.mp (List.getLast?_isSome.mpr hne)
        rw [List.getLast?_cons_cons, hx]
        rfl

/-- A fold that appends a block for every element satisfying `q` equals the
base followed by the joined blocks, in order. -/
theorem foldl_blocks {α : Type} (q : α → Bool) (g : α → List Char) :
    ∀ (l : List α) (base : List Char),
      l.foldl (fun acc x => if q x then acc ++ g x else acc) base
        = base ++ (l.filterMap (fun x => if q x then some (g x) else none)).flatten := by
  intro l
  induction l with
  | nil => intro base; simp
  | cons a t ih =>
    intro base
    simp only [List.foldl_cons, List.filterMap_cons]
    cases h : q a with
    | false => simp only [h, Bool.false_eq_true, ite_false]; simpa using ih base
    | true => simp only [h, ite_true]; rw [ih (base ++ g a)]; simp [List.append_assoc]

/-- The intercalation of a non-empty list of non-empty strings is
non-empty. -/
theorem intercalate_ne_nil (sep : List Char) (xs : List (List Char))
    (h1 : xs ≠ []) (h2 : ∀ x ∈ xs, x ≠ []) : List.intercalate sep xs ≠ [] := by
  cases xs with
  | nil => exact absurd rfl h1
  | cons x rest =>
    cases rest with
    | nil => simpa [List.intercalate] using h2 x (by simp)
    | cons y t =>
      have hx : x ≠ [] := h2 x (by simp)
      simp only [List.intercalate, List.intersperse_cons_cons, List.flatten_cons]
      intro hcontra
      exact hx (List.append_eq_nil.mp hcontra).1

/-! ## Claim theorems -/

/-- C10: for every series name and literal flag, the result of
`search_for_series` is independent of its `callback`, `refresh_cache` and
`series_match_thresh` parameters: two runs over the same database state
that differ only in those three arguments return equal output. -/
theorem C10_search_params_independent
    (cfg : Config) (env : Env) (series_name : List Char) (literal : Bool)
    (cb1 cb2 : Option (Nat → Nat → Unit)) (rc1 rc2 : Bool) (t1 t2 : Nat) :
    search_for_series cfg env series_name cb1 rc1 literal t1
      = search_for_series cfg env series_name cb2 rc2 literal t2 := rfl

/-- C9: the format classifier performs a case-insensitive word-bounded
search of the fixed marker vocabulary; the first (leftmost) match wins, a
match containing "collect" yields the literal "Collection", any other
match is returned title-cased, no match yields an absent format; in
particular "Trade Paperback (2019 series)" classifies as "Trade
Paperback", "Collects issues #1-6" as "Collection", "ongoing" as absent. -/
theorem C9_match_format :
    match_format (chars "Trade Paperback (2019 series)") = some (chars "Trade Paperback")
    ∧ match_format (chars "Collects issues #1-6") = some (chars "Collection")
    ∧ match_format (chars "ongoing") = none
    ∧ (∀ s m, reSearchFormat none s = some m →
        containsSub (chars "collect") (lowerL m) = true →
        match_format s = some (chars "Collection"))
    ∧ (∀ s m, reSearchFormat none s = some m →
        containsSub (chars "collect") (lowerL m) = false →
        match_format s = some (pyTitle m))
    ∧ (∀ s, reSearchFormat none s = none → match_format s = none) := by
  refine ⟨by decide, by decide, by decide, ?_, ?_, ?_⟩
  · intro s m h1 h2; simp [match_format, h1, h2]
  · intro s m h1 h2; simp [match_format, h1, h2]
  · intro s h; simp [match_format, h]

theorem C9_match_format_witness :
    match_format (chars "Collects issues #1-6") = some (chars "Collection")
    ∧ match_format (chars "Trade Paperback (2019 series)") = some (chars "Trade Paperback") := by
  constructor
  · exact C9_match_format.2.2.2.1 (chars "Collects issues #1-6")
      (chars "Collects issues #1-6") (by decide) (by decide)
  · have h := C9_match_format.2.2.2.2.1 (chars "Trade Paperback (2019 series)")
      (chars "Trade Paperback") (by decide) (by decide)
    rw [h]; decide

/-- C8: grouped concatenation round-trips through the assembler with the
exact separators: newline for titles and story ids, semicolon for genres,
double newline for synopses; empty values are excluded before joining; the
three-story example titles ["A","",""] assembles to ["A"] and genres
["x","y",""] to the semicolon join split back, stripped and capitalized,
order preserved. -/
theorem C8_group_concat_round_trip :
    assembleStoryTitles (groupConcat ['\n'] [chars "A", [], []]) = [chars "A"]
    ∧ assembleGenres (groupConcat [';'] [chars "x", chars "y", []])
        = ((List.intercalate [';'] [chars "x", chars "y"]).splitOn ';').map
            (fun g => pyCapitalize (pyStrip g))
    ∧ assembleGenres (groupConcat [';'] [chars "x", chars "y", []]) = [chars "X", chars "Y"]
    ∧ assembleSynopses (groupConcat (chars "\n\n") [chars "s1", [], chars "s2"])
        = [chars "s1", chars "s2"]
    ∧ assembleStoryIds (groupConcat ['\n'] [chars "7", chars "8", []]) = [chars "7", chars "8"]
    ∧ (∀ ts : List (List Char), (∀ t ∈ ts, '\n' ∉ t) →
        ts.filter (fun v => v ≠ []) ≠ [] →
        assembleStoryTitles (groupConcat ['\n'] ts) = ts.filter (fun v => v ≠ []))
    ∧ (∀ gs : List (List Char), (∀ g ∈ gs, ';' ∉ g) →
        gs.filter (fun v => v ≠ []) ≠ [] →
        assembleGenres (groupConcat [';'] gs)
          = (gs.filter (fun v => v ≠ [])).map (fun g => pyCapitalize (pyStrip g))) := by
  refine ⟨by decide, by decide, by decide, by decide, by decide, ?_, ?_⟩
  · intro ts hnl hne
    have hks : ∀ t ∈ ts.filter (fun v => v ≠ []), '\n' ∉ t :=
      fun t ht => hnl t (List.mem_of_mem_filter ht)
    cases hf : ts.filter (fun v => v ≠ []) with
    | nil => exact absurd hf hne
    | cons x xs =>
      rw [hf] at hks
      simp only [groupConcat, hf, assembleStoryTitles]
      exact List.splitOn_intercalate (x :: xs) '\n' hks (by simp)
  · intro gs hsc hne
    have hks : ∀ g ∈ gs.filter (fun v => v ≠ []), ';' ∉ g :=
      fun g hg => hsc g (List.mem_of_mem_filter hg)
    have hstr : ∀ g ∈ gs.filter (fun v => v ≠ []), g ≠ [] := by
      intro g hg
      have := (List.mem_filter.mp hg).2
      simpa using this
    cases hf : gs.filter (fun v => v ≠ []) with
    | nil => exact absurd hf hne
    | cons x xs =>
      rw [hf] at hks hstr
      have hinz : List.intercalate [';'] (x :: xs) ≠ [] :=
        intercalate_ne_nil [';'] (x :: xs) (by simp) hstr
      simp only [groupConcat, hf, assembleGenres, if_neg hinz]
      rw [List.splitOn_intercalate (x :: xs) ';' hks (by simp)]

theorem C8_group_concat_round_trip_witness :
    assembleStoryTitles (groupConcat ['\n'] [chars "Alpha", [], chars "Beta"])
      = [chars "Alpha", chars "Beta"]
    ∧ assembleGenres (groupConcat [';'] [chars " sci-fi", [], chars "horror"])
      = [chars "Sci-fi", chars "Horror"] := by
  constructor
  · have h := C8_group_concat_round_trip.2.2.2.2.2.1
      [chars "Alpha", [], chars "Beta"] (by decide) (by decide)
    rw [h]; decide
  · have h := C8_group_concat_round_trip.2.2.2.2.2.2
      [chars " sci-fi", [], chars "horror"] (by decide) (by decide)
    rw [h]; decide

/-- Modelled from the spec's words for C3 (the reading to refute): select
the FIRST price component whose casefolded text ends with the casefolded
preferred currency, through the same numeric extraction. -/
def claim_price_first (currency priceField : List Char) : Option (List Char) :=
  match (pySplit [';'] priceField).find?
      (fun p => pyEndsWith (lowerL currency) (lowerL p)) with
  | some p => xlate_float p
  | none => none

/-- An issue whose price field has two components in the same currency. -/
def issuePriceTwo : GCDIssueR := { issue0 with price := some (chars "1.00 EUR;2.00 EUR") }

/-- C3 counterexample: with raw price "1.00 EUR;2.00 EUR" and preferred
currency "EUR" the mapped price is the LAST matching component (2.00); the
claim's first-component rule yields 1.00. -/
theorem C3_price_counterexample :
    (map_comic_issue_to_metadata cfg0 issuePriceTwo series0).price = some (chars "2.00")
    ∧ claim_price_first (chars "EUR") (chars "1.00 EUR;2.00 EUR") = some (chars "1.00")
    ∧ some (chars "2.00") ≠ some (chars "1.00") := ⟨by decide, by decide, by decide⟩

/-- C3 amended: for every issue whose raw price field is non-empty, the
mapped price is obtained by splitting on ";" and selecting the LAST
component whose casefolded text ends with the casefolded configured
currency (the loop has no break, so later assignments overwrite earlier
ones); when no component matches, the price is absent. -/
theorem C3_price_last_match
    (cfg : Config) (issue : GCDIssueR) (series : GCDSeriesR) (p : List Char)
    (hp : issue.price = some p) (hne : p ≠ []) :
    (map_comic_issue_to_metadata cfg issue series).price
      = (((pySplit [';'] p).filter
            (fun comp => pyEndsWith (lowerL cfg.currency) (lowerL comp))).getLast?).elim
          none xlate_float := by
  show (match issue.price with
        | some q => if q ≠ [] then md_price cfg.currency q else none
        | none => none) = _
  rw [hp]
  simp only [if_pos hne]
  unfold md_price
  exact foldl_overwrite _ _ _ _

/-- The raw price field of the claim's example. -/
def issuePriceUsdEur : GCDIssueR := { issue0 with price := some (chars "12.99 USD; 9.99 EUR") }

/-- `cfg0` with preferred currency GBP. -/
def cfgGBP : Config := { cfg0 with currency := chars "GBP" }

theorem C3_price_last_match_witness :
    (map_comic_issue_to_metadata cfg0 issuePriceUsdEur series0).price = some (chars "9.99")
    ∧ (map_comic_issue_to_metadata cfgGBP issuePriceUsdEur series0).price = none := by
  constructor
  · rw [C3_price_last_match cfg0 issuePriceUsdEur series0
      (chars "12.99 USD; 9.99 EUR") (by decide) (by decide)]
    decide
  · rw [C3_price_last_match cfgGBP issuePriceUsdEur series0
      (chars "12.99 USD; 9.99 EUR") (by decide) (by decide)]
    decide

/-- Modelled from the spec's words for C7 (the reading to refute): with
equal counts the description is the concatenation of a
"<title>: <synopsis>\r\n\r\n" block for EVERY index pair, in list order. -/
def claim_description_blocks (titles synopses : List (List Char)) : List Char :=
  ((titles.zip synopses).map (fun ts => ts.1 ++ chars ": " ++ ts.2 ++ crlf2)).flatten

/-- Equal counts but one empty title. -/
def issueEmptyTitle : GCDIssueR :=
  { issue0 with story_titles := [chars "A", []], synopses := [chars "x", chars "y"] }

/-- C7 counterexample: with titles ["A",""] and synopses ["x","y"] (equal
counts) the mapped description skips the empty-title pair, while the
claim's per-pair concatenation keeps it. -/
theorem C7_description_counterexample :
    (map_comic_issue_to_metadata cfg0 issueEmptyTitle series0).description
        = some (chars "A: x\r\n\r\n")
    ∧ claim_description_blocks [chars "A", []] [chars "x", chars "y"]
        = chars "A: x\r\n\r\n: y\r\n\r\n"
    ∧ chars "A: x\r\n\r\n" ≠ chars "A: x\r\n\r\n: y\r\n\r\n" := ⟨by decide, by decide, by decide⟩

/-- C7 amended: with the combine-notes policy off, when the number of story
titles equals the number of synopses the mapped description is the
concatenation, in list order, of "<title>: <synopsis>\r\n\r\n" blocks for
the index pairs whose title AND synopsis are both non-empty (other pairs
produce no block); with differing counts it is all synopses joined with
"\r\n\r\n" and the titles are omitted. -/
theorem C7_description_assembly
    (cfg : Config) (series : GCDSeriesR) (issue : GCDIssueR)
    (hnotes : cfg.combine_notes = false) :
    (issue.synopses.length = issue.story_titles.length →
      (map_comic_issue_to_metadata cfg issue series).description
        = some (((issue.story_titles.zip issue.synopses).filterMap
            (fun ts =>
              if ts.1 ≠ [] && ts.2 ≠ [] then some (ts.1 ++ chars ": " ++ ts.2 ++ crlf2)
              else none)).flatten))
    ∧ (issue.synopses.length ≠ issue.story_titles.length →
      (map_comic_issue_to_metadata cfg issue series).description
        = some (List.intercalate crlf2 issue.synopses)) := by
  have hdesc : (map_comic_issue_to_metadata cfg issue series).description
      = some (map_description cfg series issue) := rfl
  constructor
  · intro hlen
    rw [hdesc]
    unfold map_description
    rw [hnotes, if_pos hlen]
    simp only [Bool.false_eq_true, ite_false]
    rw [foldl_blocks]
    simp
  · intro hlen
    rw [hdesc]
    unfold map_description
    rw [hnotes, if_neg hlen]
    simp

/-- The claim's worked example: titles ["Intro","Epilogue"] with synopses
["A beginning.","An end."]. -/
def issueIntroEpilogue : GCDIssueR :=
  { issue0 with
      story_titles := [chars "Intro", chars "Epilogue"]
      synopses := [chars "A beginning.", chars "An end."] }

theorem C7_description_assembly_witness :
    (map_comic_issue_to_metadata cfg0 issueIntroEpilogue series0).description
      = some (chars "Intro: A beginning.\r\n\r\nEpilogue: An end.\r\n\r\n") := by
  rw [(C7_description_assembly cfg0 series0 issueIntroEpilogue rfl).1 (by decide)]
  decide

/-- C1: over any issue table and series-id list, with the
treat-unnumbered-as-issue-1 policy ON and requested number "1" (no year)
the multi-series query selects exactly the union of the rows of those
series numbered "1" and those numbered "[nn]"; with the policy OFF it
selects only the rows numbered exactly "1". -/
theorem C1_alias_union
    (db : List IssueRow) (ids : List Nat) (r : IssueRow) :
    (r ∈ issues_by_num_selection db ids (chars "1") none true
      ↔ r ∈ db ∧ r.series_id ∈ ids ∧ (r.number = chars "1" ∨ r.number = chars "[nn]"))
    ∧ (r ∈ issues_by_num_selection db ids (chars "1") none false
      ↔ r ∈ db ∧ r.series_id ∈ ids ∧ r.number = chars "1") := by
  constructor
  · simp only [issues_by_num_selection, issues_num_year_where, year_date_filter,
      List.mem_flatMap, List.mem_filter, Bool.true_and, Bool.and_eq_true, beq_iff_eq,
      beq_self_eq_true, if_pos, Bool.or_eq_true, Bool.and_true]
    aesop
  · simp only [issues_by_num_selection, issues_num_year_where, year_date_filter,
      List.mem_flatMap, List.mem_filter, Bool.false_and, Bool.and_eq_true, beq_iff_eq,
      Bool.or_eq_true, Bool.and_true, ite_false]
    aesop

/-- C2: the multi-series query constrains every selected row to the
requested series ids (first conjunct), but the single-issue path
`_fetch_issue_data` does NOT when the alias policy is active and the
requested number is "1": its unparenthesized WHERE clause
(`series_id=? AND number=? OR number='[nn]'`) selects the `[nn]` row of
series 7 for a request on series 5, and `fetch_comic_data` then resolves
and returns the series-7 issue. -/
theorem C2_series_constraint :
    (∀ (db : List IssueRow) (ids : List Nat) (num : List Char) (year : Option Nat)
        (nn : Bool) (r : IssueRow),
        r ∈ issues_by_num_selection db ids num year nn → r.series_id ∈ ids)
    ∧ fetch_issue_data_where true 5 (chars "1") rowNN = true
    ∧ rowNN.series_id = 7
    ∧ (Except.map (fun md => md.series_id)
        (fetch_comic_data cfgNN env2 none (some 5) (chars "1")).2 = Except.ok (some 7)) := by
  refine ⟨?_, by decide, by decide, by decide⟩
  · intro db ids num year nn r hr
    simp only [issues_by_num_selection, List.mem_flatMap, List.mem_filter,
      issues_num_year_where, Bool.and_eq_true, beq_iff_eq] at hr
    obtain ⟨vid, hvid, _, ⟨hsid, _⟩, _⟩ := hr
    rw [hsid]
    exact hvid

theorem C2_series_constraint_witness :
    issueRowBase.series_id ∈ [1] :=
  C2_series_constraint.1 [issueRowBase] [1] (chars "1") none false issueRowBase (by decide)

/-- C4 amended: `search_for_series`, `fetch_comic_data` (both the by-id and
the series+number dispatch) and `fetch_issues_by_series_issue_num_and_year`
fail with the configuration error (`TalkerDataError` code 3) and no
database connection when the configured path is not an existing file.
(`fetch_series` and `fetch_issues_in_series` perform no such check before
the series fetch — see the counterexample.) -/
theorem C4_config_check_first :
    (∀ (cfg : Config) (env : Env) (name : List Char) (cb : Option (Nat → Nat → Unit))
        (rc lit : Bool) (th : Nat), cfg.dbFileExists = false →
        search_for_series cfg env name cb rc lit th
          = ([], Except.error (GcdError.talkerData 3)))
    ∧ (∀ (cfg : Config) (env : Env) (iid sid : Option Nat) (num : List Char),
        cfg.dbFileExists = false →
        fetch_comic_data cfg env iid sid num = ([], Except.error (GcdError.talkerData 3)))
    ∧ (∀ (cfg : Config) (env : Env) (ids : List Nat) (num : List Char) (year : Option Nat),
        cfg.dbFileExists = false →
        fetch_issues_by_series_issue_num_and_year cfg env ids num year
          = ([], Except.error (GcdError.talkerData 3))) := by
  refine ⟨?_, ?_, ?_⟩
  · intro cfg env name cb rc lit th h
    simp [search_for_series, check_db_filename_not_empty, h]
  · intro cfg env iid sid num h
    simp [fetch_comic_data, check_db_filename_not_empty, h]
  · intro cfg env ids num year h
    simp [fetch_issues_by_series_issue_num_and_year, check_create_index_events,
      check_db_filename_not_empty, h]

/-- C4 counterexample: with a missing database file and an empty cache,
`fetch_series` attempts a database connection and fails with the generic
database error (code 0), not the configuration error (code 3). -/
theorem C4_config_check_counterexample :
    fetch_series cfgNoDb emptyEnv 1
      = ([Event.cacheGetSeries 1, Event.connectDb], Except.error (GcdError.talkerData 0))
    ∧ Event.connectDb ∈ [Event.cacheGetSeries 1, Event.connectDb]
    ∧ GcdError.talkerData 0 ≠ GcdError.talkerData 3 := ⟨by decide, by decide, by decide⟩

theorem C4_config_check_first_witness :
    search_for_series cfgNoDb emptyEnv (chars "X") none false false 90
      = ([], Except.error (GcdError.talkerData 3))
    ∧ fetch_comic_data cfgNoDb emptyEnv none (some 1) (chars "1")
      = ([], Except.error (GcdError.talkerData 3))
    ∧ fetch_issues_by_series_issue_num_and_year cfgNoDb emptyEnv [1] (chars "1") none
      = ([], Except.error (GcdError.talkerData 3)) :=
  ⟨C4_config_check_first.1 cfgNoDb emptyEnv (chars "X") none false false 90 rfl,
   C4_config_check_first.2.1 cfgNoDb emptyEnv none (some 1) (chars "1") rfl,
   C4_config_check_first.2.2 cfgNoDb emptyEnv [1] (chars "1") none rfl⟩

/-- Grouping an empty row set yields no rows. -/
theorem group_issues_by_number_nil (f : Nat → List StoryRow) :
    group_issues_by_number [] f = [] := rfl

/-- C5: `fetch_issues_in_series` on a series with no issue rows returns
exactly one empty placeholder record (first conjunct — the claim's correct
half), but `fetch_comic_data` with a series id and issue number matching
no issue raises a Python `TypeError` (subscripting the None fetchone
result) instead of returning the empty placeholder (second conjunct — the
code bug). -/
theorem C5_no_match_placeholder :
    (∀ (cfg : Config) (env : Env) (sid : Nat) (series : GCDSeriesR),
        (fetch_series_data cfg env sid).result = Except.ok series →
        cfg.dbFileExists = true →
        env.issuesDb.filter (fun r => r.series_id == sid) = [] →
        (fetch_issues_in_series cfg env sid).2 = Except.ok [MD.empty])
    ∧ fetch_comic_data cfg0 emptyEnv none (some 1) (chars "2")
        = ([Event.connectDb], Except.error GcdError.pyTypeError) := by
  constructor
  · intro cfg env sid series hres hdb hrows
    unfold fetch_issues_in_series
    simp only [hres, check_create_index_events, check_db_filename_not_empty, hdb, ite_true,
      hrows, group_issues_by_number_nil]
  · decide

/-- An environment whose series cache holds series 1 complete and whose
issue table is empty. -/
def envCachedSeries : Env :=
  { emptyEnv with seriesCache := fun n => if n = 1 then some (series0, true) else none }

theorem C5_no_match_placeholder_witness :
    (fetch_issues_in_series cfg0 envCachedSeries 1).2 = Except.ok [MD.empty] :=
  C5_no_match_placeholder.1 cfg0 envCachedSeries 1 series0 (by decide) rfl rfl

/-- C6: a complete cached entry (series or issue) is returned as-is — no
database connection, cache unchanged — exactly when the cover-download
policy is off, or it is on and the cached cover-downloaded flag is true;
when the policy is on and the flag is false, the cache hit is treated as a
miss: the database path re-runs (connections occur, covers are fetched)
and the cache entry is overwritten with the freshly built complete
record. -/
theorem C6_cache_gating :
    (∀ (cfg : Config) (env : Env) (sid : Nat) (c : GCDSeriesR),
        env.seriesCache sid = some (c, true) →
        (cfg.download_gui_covers = false ∨ c.cover_downloaded = true) →
        fetch_series_data cfg env sid
          = { events := [Event.cacheGetSeries sid], result := Except.ok c,
              cacheAfter := some (c, true) })
    ∧ (∀ (cfg : Config) (env : Env) (sid : Nat) (c : GCDSeriesR) (row : SeriesRow),
        env.seriesCache sid = some (c, true) →
        cfg.download_gui_covers = true → c.cover_downloaded = false →
        cfg.dbFileExists = true → env.seriesDb sid = some row →
        fetch_series_data cfg env sid
          = { events := [Event.cacheGetSeries sid, Event.connectDb, Event.connectDb,
                Event.webRequest, Event.cachePutSeries sid],
              result := Except.ok (build_series_data cfg env sid row),
              cacheAfter := some (build_series_data cfg env sid row, true) })
    ∧ (∀ (cfg : Config) (env : Env) (iid : Nat) (c : GCDIssueR),
        env.issueCache iid = some (c, true) →
        (cfg.download_gui_covers = false ∨ c.covers_downloaded = true) →
        fetch_issue_by_issue_id cfg env iid
          = { events := [Event.cacheGetIssue iid], result := Except.ok c,
              cacheAfter := some (c, true) })
    ∧ (∀ (cfg : Config) (env : Env) (iid : Nat) (c : GCDIssueR) (row : IssueRow),
        env.issueCache iid = some (c, true) →
        cfg.download_gui_covers = true → c.covers_downloaded = false →
        cfg.dbFileExists = true → cfg.has_issue_id_type_id_index = true →
        env.issuesDb.find? (fun r => r.id == iid) = some row →
        fetch_issue_by_issue_id cfg env iid
          = { events := [Event.cacheGetIssue iid, Event.connectDb, Event.connectDb,
                Event.webRequest, Event.cachePutIssue iid],
              result := Except.ok (build_complete_issue cfg env iid row),
              cacheAfter := some (build_complete_issue cfg env iid row, true) }) := by
  refine ⟨?_, ?_, ?_, ?_⟩
  · intro cfg env sid c hc hor
    unfold fetch_series_data
    rw [hc]
    cases hcov : cfg.download_gui_covers with
    | false => simp
    | true =>
      have hflag : c.cover_downloaded = true := by
        rcases hor with h | h
        · rw [h] at hcov; exact absurd hcov (by simp)
        · exact h
      simp [hflag]
  · intro cfg env sid c row hc hcov hflag hdb hrow
    unfold fetch_series_data
    rw [hc]
    simp only [hcov, hflag, Bool.and_false, Bool.not_true, Bool.false_eq_true, ite_false]
    unfold fetch_series_data_db
    simp [hdb, hrow, hcov]
  · intro cfg env iid c hc hor
    unfold fetch_issue_by_issue_id
    rw [hc]
    cases hcov : cfg.download_gui_covers with
    | false => simp
    | true =>
      have hflag : c.covers_downloaded = true := by
        rcases hor with h | h
        · rw [h] at hcov; exact absurd hcov (by simp)
        · exact h
      simp [hflag]
  · intro cfg env iid c row hc hcov hflag hdb hidx hrow
    unfold fetch_issue_by_issue_id
    rw [hc]
    simp only [hcov, hflag, Bool.and_false, Bool.not_true, Bool.false_eq_true, ite_false]
    unfold fetch_issue_by_issue_id_db
    simp [check_create_index_events, check_db_filename_not_empty, hdb, hidx, hrow, hcov]

/-- `cfg0` with the GUI cover-download policy on. -/
def cfgCovers : Config := { cfg0 with download_gui_covers := true }

/-- A stale series cache entry (complete, cover flag false) plus the
database row to rebuild from. -/
def envSeriesStale : Env :=
  { emptyEnv with
      seriesCache := fun n => if n = 1 then some (series0, true) else none
      seriesDb := fun n => if n = 1 then some seriesRow1 else none }

/-- A stale issue cache entry (complete, covers flag false) plus the
database row to rebuild from. -/
def envIssueStale : Env :=
  { emptyEnv with
      issueCache := fun n => if n = 10 then some (issue0, true) else none
      issuesDb := [issueRowBase] }

theorem C6_cache_gating_witness :
    fetch_series_data cfg0 envCachedSeries 1
      = { events := [Event.cacheGetSeries 1], result := Except.ok series0,
          cacheAfter := some (series0, true) }
    ∧ fetch_series_data cfgCovers envSeriesStale 1
      = { events := [Event.cacheGetSeries 1, Event.connectDb, Event.connectDb,
            Event.webRequest, Event.cachePutSeries 1],
          result := Except.ok (build_series_data cfgCovers envSeriesStale 1 seriesRow1),
          cacheAfter := some (build_series_data cfgCovers envSeriesStale 1 seriesRow1, true) }
    ∧ fetch_issue_by_issue_id cfg0 envIssueStale 10
      = { events := [Event.cacheGetIssue 10], result := Except.ok issue0,
          cacheAfter := some (issue0, true) }
    ∧ fetch_issue_by_issue_id cfgCovers envIssueStale 10
      = { events := [Event.cacheGetIssue 10, Event.connectDb, Event.connectDb,
            Event.webRequest, Event.cachePutIssue 10],
          result := Except.ok (build_complete_issue cfgCovers envIssueStale 10 issueRowBase),
          cacheAfter := some (build_complete_issue cfgCovers envIssueStale 10 issueRowBase, true) } :=
  ⟨C6_cache_gating.1 cfg0 envCachedSeries 1 series0 (by decide) (Or.inl rfl),
   C6_cache_gating.2.1 cfgCovers envSeriesStale 1 series0 seriesRow1 (by decide) rfl rfl rfl
     (by decide),
   C6_cache_gating.2.2.1 cfg0 envIssueStale 10 issue0 (by decide) (Or.inl rfl),
   C6_cache_gating.2.2.2 cfgCovers envIssueStale 10 issue0 issueRowBase (by decide) rfl rfl rfl
     rfl (by decide)⟩
